import Mathlib

/-!
Verification of the FloodLoop backend (src/backend): the flood-risk scoring
engine, the alert-evaluation logic, the SSE live-feed loop, alert creation
validation, and the persistence behaviour of the logged weather fetch.

Numeric weather quantities are modelled as rationals (`ℚ`): every concrete
value appearing in the claims is exactly representable, and the source
arithmetic (division, `min`/`max` clamps, weighted sum) is exact on them.
Rounding to one decimal place is modelled with Mathlib's `round`
(ties round up); the source's rounding differs from it only on exact ties
at the second decimal, and no statement below sits on such a tie.
-/

namespace FloodLoop

/-- Rounding to one decimal place, as applied to the composite score in
`calculate_flood_probability` (src/backend/main.py line 147). -/
def round1 (x : ℚ) : ℚ := (round (x * 10) : ℤ) / 10

/-- Result of the flood-risk engine (`FloodRisk` in src/backend/schemas.py). -/
structure FloodRisk where
  score : ℚ
  level : String
  color : String
deriving DecidableEq, Repr

/-- Level/colour assignment from the score, src/backend/main.py lines 149-154. -/
def risk_level_color (score : ℚ) : String × String :=
  if score ≥ 65 then ("HIGH", "#ef4444")
  else if score ≥ 35 then ("MEDIUM", "#f59e0b")
  else ("LOW", "#22c55e")

/-- `calculate_flood_probability`, src/backend/main.py lines 134-156.
The running `score += …` accumulation is written as the equivalent sum. -/
def calculate_flood_probability (rain_1h rain_3h humidity wind_speed clouds : ℚ) :
    FloodRisk :=
  let score :=
    min (rain_1h / 20) 1 * 40 +
    min (rain_3h / 40) 1 * 25 +
    min (max (humidity - 60) 0 / 40) 1 * 20 +
    min (wind_speed / 25) 1 * 10 +
    min (clouds / 100) 1 * 5
  let score := round1 (min score 100)
  let lc := risk_level_color score
  ⟨score, lc.1, lc.2⟩

/-- The scoring formula exactly as the specification states it (spec §4.1),
for comparison with the implementation. -/
def spec_score (rain_1h rain_3h humidity wind_speed clouds : ℚ) : ℚ :=
  round1 (min
    (40 * min (rain_1h / 20) 1 +
     25 * min (rain_3h / 40) 1 +
     20 * min (max (humidity - 60) 0 / 40) 1 +
     10 * min (wind_speed / 25) 1 +
      5 * min (clouds / 100) 1) 100)

lemma cfp_score (r1 r3 h w c : ℚ) :
    (calculate_flood_probability r1 r3 h w c).score =
      round1 (min
        (min (r1 / 20) 1 * 40 + min (r3 / 40) 1 * 25 +
         min (max (h - 60) 0 / 40) 1 * 20 + min (w / 25) 1 * 10 +
         min (c / 100) 1 * 5) 100) := rfl

lemma cfp_level (r1 r3 h w c : ℚ) :
    (calculate_flood_probability r1 r3 h w c).level =
      (risk_level_color (calculate_flood_probability r1 r3 h w c).score).1 := rfl

lemma cfp_color (r1 r3 h w c : ℚ) :
    (calculate_flood_probability r1 r3 h w c).color =
      (risk_level_color (calculate_flood_probability r1 r3 h w c).score).2 := rfl

lemma round1_mono {x y : ℚ} (h : x ≤ y) : round1 x ≤ round1 y := by
  unfold round1
  have hx : round (x * 10) ≤ round (y * 10) := by
    rw [round_eq, round_eq]
    exact Int.floor_le_floor (by linarith)
  have := (div_le_div_iff_of_pos_right (c := (10 : ℚ)) (by norm_num)).mpr
    (Int.cast_le.mpr hx)
  exact_mod_cast this

lemma round1_intCast (n : ℤ) : round1 ((n : ℚ)) = n := by
  unfold round1
  have h : ((n : ℚ)) * 10 = ((n * 10 : ℤ) : ℚ) := by push_cast; ring
  rw [h, round_intCast]
  push_cast
  ring

/-- Evaluation helper: when the clamped weighted sum is the integer `n` and the
level table sends `n` to `(lv, co)`, the engine returns `⟨n, lv, co⟩`. -/
lemma cfp_eval (r1 r3 h w c : ℚ) (n : ℤ) (lv co : String)
    (hs : min
        (min (r1 / 20) 1 * 40 + min (r3 / 40) 1 * 25 +
         min (max (h - 60) 0 / 40) 1 * 20 + min (w / 25) 1 * 10 +
         min (c / 100) 1 * 5) 100 = (n : ℚ))
    (hlc : risk_level_color ((n : ℚ)) = (lv, co)) :
    calculate_flood_probability r1 r3 h w c = ⟨(n : ℚ), lv, co⟩ := by
  unfold calculate_flood_probability
  simp only [hs, round1_intCast, hlc]

/-- C2: the implementation computes exactly the specification's weighted,
capped, rounded sum; isolated `rain_1h = 20` scores 40.0 and isolated
`rain_1h = 40` also scores 40.0 (capped). -/
theorem score_matches_spec_formula :
    (∀ r1 r3 h w c : ℚ,
      (calculate_flood_probability r1 r3 h w c).score = spec_score r1 r3 h w c) ∧
    (calculate_flood_probability 20 0 0 0 0).score = 40 ∧
    (calculate_flood_probability 40 0 0 0 0).score = 40 := by
  refine ⟨fun r1 r3 h w c => ?_, ?_, ?_⟩
  · rw [cfp_score]
    unfold spec_score
    ring_nf
  · rw [cfp_eval 20 0 0 0 0 40 "MEDIUM" "#f59e0b"
      (by norm_num [min_def, max_def]) (by norm_num [risk_level_color])]
    norm_num
  · rw [cfp_eval 40 0 0 0 0 40 "MEDIUM" "#f59e0b"
      (by norm_num [min_def, max_def]) (by norm_num [risk_level_color])]
    norm_num

lemma round1_zero : round1 0 = 0 := by
  have h := round1_intCast 0
  simpa using h

lemma round1_hundred : round1 100 = 100 := by
  have h := round1_intCast 100
  simpa using h

/-- C3 counterexample: `rain_1h = -5` (all else 0) scores -10.0, while
`rain_1h = 0` scores 0.0 — a negative rain factor does NOT contribute 0. -/
theorem neg_rain_not_zero_contribution :
    (calculate_flood_probability (-5) 0 0 0 0).score = -10 ∧
    (calculate_flood_probability 0 0 0 0 0).score = 0 ∧
    (calculate_flood_probability (-5) 0 0 0 0).score ≠
      (calculate_flood_probability 0 0 0 0 0).score := by
  have h1 := cfp_eval (-5) 0 0 0 0 (-10) "LOW" "#22c55e"
    (by norm_num [min_def, max_def]) (by norm_num [risk_level_color])
  have h2 := cfp_eval 0 0 0 0 0 0 "LOW" "#22c55e"
    (by norm_num [min_def, max_def]) (by norm_num [risk_level_color])
  rw [h1, h2]
  norm_num

/-- C3 amended: negative inputs are accepted and pass through the clamps, but
only the humidity excess is clamped below at 0 (any humidity ≤ 60 contributes
the same as humidity 0); each of the other four factors contributes
non-positively when negative, so replacing any of them by 0 can only raise the
score, and isolated negative values contribute strictly negatively:
`rain_1h = -5` scores -10.0 (not the 0.0 of `rain_1h = 0`), `rain_3h = -40`
scores -25.0, `wind_speed = -25` scores -10.0, `clouds = -100` scores -5.0. -/
theorem neg_inputs_amended :
    (∀ r1 r3 h w c : ℚ, h ≤ 60 →
      calculate_flood_probability r1 r3 h w c =
        calculate_flood_probability r1 r3 0 w c) ∧
    (∀ r1 r3 h w c : ℚ, r1 ≤ 0 →
      (calculate_flood_probability r1 r3 h w c).score ≤
        (calculate_flood_probability 0 r3 h w c).score) ∧
    (∀ r1 r3 h w c : ℚ, r3 ≤ 0 →
      (calculate_flood_probability r1 r3 h w c).score ≤
        (calculate_flood_probability r1 0 h w c).score) ∧
    (∀ r1 r3 h w c : ℚ, w ≤ 0 →
      (calculate_flood_probability r1 r3 h w c).score ≤
        (calculate_flood_probability r1 r3 h 0 c).score) ∧
    (∀ r1 r3 h w c : ℚ, c ≤ 0 →
      (calculate_flood_probability r1 r3 h w c).score ≤
        (calculate_flood_probability r1 r3 h w 0).score) ∧
    (calculate_flood_probability (-5) 0 0 0 0).score = -10 ∧
    (calculate_flood_probability 0 (-40) 0 0 0).score = -25 ∧
    (calculate_flood_probability 0 0 0 (-25) 0).score = -10 ∧
    (calculate_flood_probability 0 0 0 0 (-100)).score = -5 := by
  refine ⟨?_, ?_, ?_, ?_, ?_, ?_, ?_, ?_, ?_⟩
  · intro r1 r3 h w c hh
    unfold calculate_flood_probability
    have e1 : max (h - 60) 0 = 0 := max_eq_right (by linarith)
    have e2 : max ((0 : ℚ) - 60) 0 = 0 := max_eq_right (by norm_num)
    rw [e1, e2]
  · intro r1 r3 h w c hr
    rw [cfp_score, cfp_score]
    apply round1_mono
    apply min_le_min _ le_rfl
    have hd : r1 / 20 ≤ (0 : ℚ) / 20 := div_le_div_of_le (by norm_num) hr
    have hm : min (r1 / 20) 1 * 40 ≤ min ((0 : ℚ) / 20) 1 * 40 :=
      mul_le_mul_of_nonneg_right (min_le_min hd le_rfl) (by norm_num)
    linarith
  · intro r1 r3 h w c hr
    rw [cfp_score, cfp_score]
    apply round1_mono
    apply min_le_min _ le_rfl
    have hd : r3 / 40 ≤ (0 : ℚ) / 40 := div_le_div_of_le (by norm_num) hr
    have hm : min (r3 / 40) 1 * 25 ≤ min ((0 : ℚ) / 40) 1 * 25 :=
      mul_le_mul_of_nonneg_right (min_le_min hd le_rfl) (by norm_num)
    linarith
  · intro r1 r3 h w c hw
    rw [cfp_score, cfp_score]
    apply round1_mono
    apply min_le_min _ le_rfl
    have hd : w / 25 ≤ (0 : ℚ) / 25 := div_le_div_of_le (by norm_num) hw
    have hm : min (w / 25) 1 * 10 ≤ min ((0 : ℚ) / 25) 1 * 10 :=
      mul_le_mul_of_nonneg_right (min_le_min hd le_rfl) (by norm_num)
    linarith
  · intro r1 r3 h w c hc
    rw [cfp_score, cfp_score]
    apply round1_mono
    apply min_le_min _ le_rfl
    have hd : c / 100 ≤ (0 : ℚ) / 100 := div_le_div_of_le (by norm_num) hc
    have hm : min (c / 100) 1 * 5 ≤ min ((0 : ℚ) / 100) 1 * 5 :=
      mul_le_mul_of_nonneg_right (min_le_min hd le_rfl) (by norm_num)
    linarith
  · rw [cfp_eval (-5) 0 0 0 0 (-10) "LOW" "#22c55e"
      (by norm_num [min_def, max_def]) (by norm_num [risk_level_color])]
    norm_num
  · rw [cfp_eval 0 (-40) 0 0 0 (-25) "LOW" "#22c55e"
      (by norm_num [min_def, max_def]) (by norm_num [risk_level_color])]
    norm_num
  · rw [cfp_eval 0 0 0 (-25) 0 (-10) "LOW" "#22c55e"
      (by norm_num [min_def, max_def]) (by norm_num [risk_level_color])]
    norm_num
  · rw [cfp_eval 0 0 0 0 (-100) (-5) "LOW" "#22c55e"
      (by norm_num [min_def, max_def]) (by norm_num [risk_level_color])]
    norm_num

theorem neg_inputs_amended_witness :
    calculate_flood_probability 1 2 50 3 4 = calculate_flood_probability 1 2 0 3 4 ∧
    (calculate_flood_probability (-3) 7 70 2 9).score ≤
      (calculate_flood_probability 0 7 70 2 9).score ∧
    (calculate_flood_probability 6 (-8) 70 2 9).score ≤
      (calculate_flood_probability 6 0 70 2 9).score ∧
    (calculate_flood_probability 6 8 70 (-2) 9).score ≤
      (calculate_flood_probability 6 8 70 0 9).score ∧
    (calculate_flood_probability 6 8 70 2 (-9)).score ≤
      (calculate_flood_probability 6 8 70 2 0).score :=
  ⟨neg_inputs_amended.1 1 2 50 3 4 (by norm_num),
   neg_inputs_amended.2.1 (-3) 7 70 2 9 (by norm_num),
   neg_inputs_amended.2.2.1 6 (-8) 70 2 9 (by norm_num),
   neg_inputs_amended.2.2.2.1 6 8 70 (-2) 9 (by norm_num),
   neg_inputs_amended.2.2.2.2.1 6 8 70 2 (-9) (by norm_num)⟩

/-- C4: on physically valid (non-negative) observations the score lies in
[0, 100]; and the engine is a pure function — equal inputs give an identical
`FloodRisk` (score, level and colour, rounding included). -/
theorem score_bounds_and_determinism :
    (∀ r1 r3 h w c : ℚ, 0 ≤ r1 → 0 ≤ r3 → 0 ≤ h → 0 ≤ w → 0 ≤ c →
      0 ≤ (calculate_flood_probability r1 r3 h w c).score ∧
        (calculate_flood_probability r1 r3 h w c).score ≤ 100) ∧
    (∀ r1 r3 h w c r1' r3' h' w' c' : ℚ,
      r1 = r1' → r3 = r3' → h = h' → w = w' → c = c' →
      calculate_flood_probability r1 r3 h w c =
        calculate_flood_probability r1' r3' h' w' c') := by
  constructor
  · intro r1 r3 h w c hr1 hr3 hh hw hc
    rw [cfp_score]
    have t1 : 0 ≤ min (r1 / 20) 1 * 40 :=
      mul_nonneg (le_min (div_nonneg hr1 (by norm_num)) zero_le_one) (by norm_num)
    have t2 : 0 ≤ min (r3 / 40) 1 * 25 :=
      mul_nonneg (le_min (div_nonneg hr3 (by norm_num)) zero_le_one) (by norm_num)
    have t3 : 0 ≤ min (max (h - 60) 0 / 40) 1 * 20 :=
      mul_nonneg (le_min (div_nonneg (le_max_right _ _) (by norm_num)) zero_le_one)
        (by norm_num)
    have t4 : 0 ≤ min (w / 25) 1 * 10 :=
      mul_nonneg (le_min (div_nonneg hw (by norm_num)) zero_le_one) (by norm_num)
    have t5 : 0 ≤ min (c / 100) 1 * 5 :=
      mul_nonneg (le_min (div_nonneg hc (by norm_num)) zero_le_one) (by norm_num)
    constructor
    · have h0 : (0 : ℚ) ≤ min
          (min (r1 / 20) 1 * 40 + min (r3 / 40) 1 * 25 +
           min (max (h - 60) 0 / 40) 1 * 20 + min (w / 25) 1 * 10 +
           min (c / 100) 1 * 5) 100 :=
        le_min (by linarith) (by norm_num)
      calc (0 : ℚ) = round1 0 := round1_zero.symm
        _ ≤ _ := round1_mono h0
    · calc round1 _ ≤ round1 100 := round1_mono (min_le_right _ _)
        _ = 100 := round1_hundred
  · intro r1 r3 h w c r1' r3' h' w' c' e1 e2 e3 e4 e5
    rw [e1, e2, e3, e4, e5]

theorem score_bounds_and_determinism_witness :
    (0 ≤ (calculate_flood_probability 5 3 80 2 50).score ∧
      (calculate_flood_probability 5 3 80 2 50).score ≤ 100) ∧
    calculate_flood_probability 5 3 80 2 50 = calculate_flood_probability 5 3 80 2 50 :=
  ⟨score_bounds_and_determinism.1 5 3 80 2 50 (by norm_num) (by norm_num)
      (by norm_num) (by norm_num) (by norm_num),
   score_bounds_and_determinism.2 5 3 80 2 50 5 3 80 2 50 rfl rfl rfl rfl rfl⟩

/-- C5: the level is determined from the score with inclusive lower bounds
(≥ 65 HIGH, [35, 65) MEDIUM, < 35 LOW), the colour is a fixed function of the
level, and the sample input (25, 0, 60, 0, 0) scores 40.0 at level MEDIUM. -/
theorem level_from_score_inclusive_bounds :
    (∀ s : ℚ, 65 ≤ s → risk_level_color s = ("HIGH", "#ef4444")) ∧
    (∀ s : ℚ, 35 ≤ s → s < 65 → risk_level_color s = ("MEDIUM", "#f59e0b")) ∧
    (∀ s : ℚ, s < 35 → risk_level_color s = ("LOW", "#22c55e")) ∧
    (∀ r1 r3 h w c : ℚ,
      (calculate_flood_probability r1 r3 h w c).level =
        (risk_level_color (calculate_flood_probability r1 r3 h w c).score).1 ∧
      (calculate_flood_probability r1 r3 h w c).color =
        (risk_level_color (calculate_flood_probability r1 r3 h w c).score).2) ∧
    risk_level_color 65 = ("HIGH", "#ef4444") ∧
    risk_level_color (649 / 10) = ("MEDIUM", "#f59e0b") ∧
    risk_level_color 35 = ("MEDIUM", "#f59e0b") ∧
    risk_level_color (349 / 10) = ("LOW", "#22c55e") ∧
    calculate_flood_probability 25 0 60 0 0 = ⟨40, "MEDIUM", "#f59e0b"⟩ := by
  refine ⟨?_, ?_, ?_, ?_, ?_, ?_, ?_, ?_, ?_⟩
  · intro s hs
    unfold risk_level_color
    split_ifs with h1 h2 <;> first | rfl | linarith
  · intro s hs1 hs2
    unfold risk_level_color
    split_ifs with h1 h2 <;> first | rfl | linarith
  · intro s hs
    unfold risk_level_color
    split_ifs with h1 h2 <;> first | rfl | linarith
  · exact fun r1 r3 h w c => ⟨cfp_level r1 r3 h w c, cfp_color r1 r3 h w c⟩
  · norm_num [risk_level_color]
  · norm_num [risk_level_color]
  · norm_num [risk_level_color]
  · norm_num [risk_level_color]
  · have := cfp_eval 25 0 60 0 0 40 "MEDIUM" "#f59e0b"
      (by norm_num [min_def, max_def]) (by norm_num [risk_level_color])
    rw [this]
    norm_num

theorem level_from_score_inclusive_bounds_witness :
    risk_level_color 70 = ("HIGH", "#ef4444") ∧
    risk_level_color 50 = ("MEDIUM", "#f59e0b") ∧
    risk_level_color 10 = ("LOW", "#22c55e") :=
  ⟨level_from_score_inclusive_bounds.1 70 (by norm_num),
   level_from_score_inclusive_bounds.2.1 50 (by norm_num) (by norm_num),
   level_from_score_inclusive_bounds.2.2.1 10 (by norm_num)⟩

/-! ### Alerts and their evaluation (src/backend/database.py `Alert`,
src/backend/main.py `check_alerts` lines 490-499 and the `save_log` branch of
`get_weather` lines 275-282). Timestamps are abstract ticks (`ℕ`). -/

/-- A row of the `alerts` table (src/backend/database.py lines 87-100). -/
structure Alert where
  id : ℤ
  city_id : ℤ
  threshold : ℚ
  label : String
  is_active : Bool
  last_triggered : Option ℕ
  trigger_count : ℤ
deriving DecidableEq, Repr

/-- The firing condition common to both evaluation sites: the alert belongs to
the city, is active (both from the SQL query filters) and its threshold is met
(`flood.score >= alert.threshold` in `check_alerts`; `Alert.threshold <=
flood.score` in the `get_weather` query). -/
def alert_qualifies (cid : ℤ) (score : ℚ) (a : Alert) : Bool :=
  a.city_id == cid && a.is_active && decide (a.threshold ≤ score)

/-- The per-row mutation of one evaluation: a qualifying alert gets
`last_triggered = now` and `trigger_count += 1`; any other row is untouched. -/
def check_alert_step (now : ℕ) (score : ℚ) (cid : ℤ) (a : Alert) : Alert :=
  if alert_qualifies cid score a then
    { a with last_triggered := some now, trigger_count := a.trigger_count + 1 }
  else a

/-- One alert evaluation over the whole alerts table: the updated table and
the list of triggered alert ids (`check_alerts`, src/backend/main.py
lines 490-499). -/
def check_alerts_eval (now : ℕ) (score : ℚ) (cid : ℤ) (alerts : List Alert) :
    List Alert × List ℤ :=
  (alerts.map (check_alert_step now score cid),
   (alerts.filter (alert_qualifies cid score)).map (fun a => a.id))

lemma check_alert_step_frame (now : ℕ) (score : ℚ) (cid : ℤ) (a : Alert) :
    (check_alert_step now score cid a).id = a.id ∧
    (check_alert_step now score cid a).city_id = a.city_id ∧
    (check_alert_step now score cid a).threshold = a.threshold ∧
    (check_alert_step now score cid a).is_active = a.is_active := by
  unfold check_alert_step
  split <;> simp

/-- C6: in one evaluation, every active alert of the city whose threshold is
at most the score gets `trigger_count + 1` and `last_triggered = now`; every
alert that is inactive or non-qualifying is entirely unchanged; with two
active alerts of thresholds 30 and 80 and score 50, only the first fires. -/
theorem alert_evaluation_fires_qualifying_only :
    (∀ now score cid (a : Alert),
      a.city_id = cid → a.is_active = true → a.threshold ≤ score →
      check_alert_step now score cid a =
        { a with last_triggered := some now, trigger_count := a.trigger_count + 1 }) ∧
    (∀ now score cid (a : Alert),
      ¬(a.city_id = cid ∧ a.is_active = true ∧ a.threshold ≤ score) →
      check_alert_step now score cid a = a) ∧
    check_alerts_eval 7 50 1
        [⟨1, 1, 30, "lo", true, none, 0⟩, ⟨2, 1, 80, "hi", true, none, 0⟩] =
      ([⟨1, 1, 30, "lo", true, some 7, 1⟩, ⟨2, 1, 80, "hi", true, none, 0⟩],
       [1]) := by
  refine ⟨?_, ?_, ?_⟩
  · intro now score cid a h1 h2 h3
    unfold check_alert_step alert_qualifies
    rw [if_pos]
    simp [h1, h2, h3]
  · intro now score cid a h
    unfold check_alert_step alert_qualifies
    rw [if_neg]
    simp only [Bool.and_eq_true, beq_iff_eq, decide_eq_true_eq]
    tauto
  · unfold check_alerts_eval check_alert_step alert_qualifies
    norm_num [List.filter]

theorem alert_evaluation_fires_qualifying_only_witness :
    check_alert_step 3 60 2 ⟨9, 2, 55, "x", true, none, 4⟩ =
      ⟨9, 2, 55, "x", true, some 3, 5⟩ ∧
    check_alert_step 3 60 2 ⟨9, 2, 55, "x", false, none, 4⟩ =
      ⟨9, 2, 55, "x", false, none, 4⟩ :=
  ⟨alert_evaluation_fires_qualifying_only.1 3 60 2 ⟨9, 2, 55, "x", true, none, 4⟩
      rfl rfl (by norm_num),
   alert_evaluation_fires_qualifying_only.2.1 3 60 2 ⟨9, 2, 55, "x", false, none, 4⟩
      (by simp)⟩

/-- Folding successive evaluations (each with its own timestamp and score)
over one alert row. -/
def eval_many (cid : ℤ) (evals : List (ℕ × ℚ)) (a : Alert) : Alert :=
  evals.foldl (fun x e => check_alert_step e.1 e.2 cid x) a

lemma check_alert_step_trigger_mono (now : ℕ) (score : ℚ) (cid : ℤ) (a : Alert) :
    a.trigger_count ≤ (check_alert_step now score cid a).trigger_count := by
  unfold check_alert_step
  split <;> simp <;> linarith

lemma eval_many_qualifying (cid : ℤ) (evals : List (ℕ × ℚ)) :
    ∀ a : Alert, a.city_id = cid → a.is_active = true →
      (∀ e ∈ evals, a.threshold ≤ e.2) →
      (eval_many cid evals a).trigger_count = a.trigger_count + evals.length := by
  induction evals with
  | nil => intro a _ _ _; simp [eval_many]
  | cons e rest ih =>
    intro a h1 h2 h3
    have hq : alert_qualifies cid e.2 a = true := by
      unfold alert_qualifies
      simp [h1, h2, h3 e (by simp)]
    have hstep : check_alert_step e.1 e.2 cid a =
        { a with last_triggered := some e.1, trigger_count := a.trigger_count + 1 } := by
      unfold check_alert_step
      rw [if_pos hq]
    have : (eval_many cid rest (check_alert_step e.1 e.2 cid a)).trigger_count =
        (check_alert_step e.1 e.2 cid a).trigger_count + rest.length := by
      apply ih
      · rw [hstep]; exact h1
      · rw [hstep]; exact h2
      · intro x hx
        rw [hstep]
        exact h3 x (by simp [hx])
    unfold eval_many at this ⊢
    simp only [List.foldl_cons]
    rw [this, hstep]
    simp
    ring

/-- C7: no debounce — an active alert whose threshold stays at or below every
evaluation's score across N successive evaluations has its `trigger_count`
increased by exactly N, and a single evaluation never decreases it. -/
theorem alert_trigger_count_no_debounce :
    (∀ (cid : ℤ) (evals : List (ℕ × ℚ)) (a : Alert),
      a.city_id = cid → a.is_active = true →
      (∀ e ∈ evals, a.threshold ≤ e.2) →
      (eval_many cid evals a).trigger_count = a.trigger_count + evals.length) ∧
    (∀ now score cid (a : Alert),
      a.trigger_count ≤ (check_alert_step now score cid a).trigger_count) :=
  ⟨fun cid evals a h1 h2 h3 => eval_many_qualifying cid evals a h1 h2 h3,
   check_alert_step_trigger_mono⟩

theorem alert_trigger_count_no_debounce_witness :
    (eval_many 1 [(1, 50), (2, 60), (3, 45)]
        ⟨1, 1, 30, "lo", true, none, 0⟩).trigger_count = 0 + 3 ∧
    (⟨1, 1, 30, "lo", true, none, 0⟩ : Alert).trigger_count ≤
      (check_alert_step 1 50 1 ⟨1, 1, 30, "lo", true, none, 0⟩).trigger_count :=
  ⟨alert_trigger_count_no_debounce.1 1 [(1, 50), (2, 60), (3, 45)]
      ⟨1, 1, 30, "lo", true, none, 0⟩ rfl rfl (by
        intro e he
        simp only [List.mem_cons, List.not_mem_nil, or_false] at he
        rcases he with h | h | h <;> subst h <;> norm_num),
   alert_trigger_count_no_debounce.2 1 50 1 ⟨1, 1, 30, "lo", true, none, 0⟩⟩

/-! ### Persistence model. A SQLAlchemy session tracks pending changes that
become durable only at `db.commit()`. `PersistState` separates the durable
database from the session's view; a crash keeps only the durable part, so the
durable state after a prefix of the executed steps is what a failure at that
point leaves behind. -/

/-- A row of the `weather_logs` table (src/backend/database.py lines 48-71),
restricted to the fields the claims mention. -/
structure WeatherLog where
  city_id : ℤ
  recorded_at : ℕ
  rain_1h : ℚ
  rain_3h : ℚ
  humidity : ℚ
  wind_speed : ℚ
  clouds : ℚ
  description : String
  flood_score : ℚ
  flood_level : String
deriving DecidableEq, Repr

/-- A row of the `cities` table (src/backend/database.py lines 31-45). -/
structure City where
  id : ℤ
  name : String
  country : String
  state : String
  lat : ℚ
  lon : ℚ
  is_favorite : Bool
deriving DecidableEq, Repr

/-- The relational store, restricted to the tables the claims touch. -/
structure DBState where
  cities : List City
  logs : List WeatherLog
  alerts : List Alert
deriving DecidableEq, Repr

/-- Durable database plus the session's pending view. -/
structure PersistState where
  durable : DBState
  session : DBState
deriving DecidableEq, Repr

/-- The primitive database actions executed by the `save_log` branch of
`get_weather` (src/backend/main.py lines 273-282 and `_log_weather`,
lines 173-191). -/
inductive DbStep where
  | addLog (l : WeatherLog)
  | updateAlerts (now : ℕ) (cid : ℤ) (score : ℚ)
  | commit
deriving DecidableEq, Repr

def applyStep (s : PersistState) : DbStep → PersistState
  | .addLog l =>
      { s with session := { s.session with logs := s.session.logs ++ [l] } }
  | .updateAlerts now cid score =>
      { s with session :=
          { s.session with
            alerts := s.session.alerts.map (check_alert_step now score cid) } }
  | .commit => { s with durable := s.session }

/-- `_log_weather` (src/backend/main.py lines 173-191): `db.add(log)` then its
own `db.commit()`. -/
def log_weather_steps (l : WeatherLog) : List DbStep :=
  [.addLog l, .commit]

/-- The `save_log` branch of `get_weather` (src/backend/main.py lines
273-282): `_log_weather` (which commits), then the alert mutations, then a
second `db.commit()`. -/
def save_branch_steps (l : WeatherLog) (now : ℕ) (cid : ℤ) (score : ℚ) :
    List DbStep :=
  log_weather_steps l ++ [.updateAlerts now cid score, .commit]

def runSteps (init : DBState) (steps : List DbStep) : PersistState :=
  steps.foldl applyStep ⟨init, init⟩

/-- The durable state a crash leaves after the first `k` steps have run. -/
def crashAt (init : DBState) (steps : List DbStep) (k : ℕ) : DBState :=
  (runSteps init (steps.take k)).durable

/-- C1 counterexample: with one active threshold-30 alert and score 50, a
failure after `_log_weather`'s commit (step 2 of 4) leaves the snapshot
durably persisted while the qualifying active alert is still unmutated. -/
theorem log_and_evaluate_not_atomic :
    crashAt ⟨[], [], [⟨1, 1, 30, "lo", true, none, 0⟩]⟩
        (save_branch_steps ⟨1, 7, 25, 0, 60, 0, 0, "rain", 40, "MEDIUM"⟩ 7 1 50) 2 =
      ⟨[], [⟨1, 7, 25, 0, 60, 0, 0, "rain", 40, "MEDIUM"⟩],
       [⟨1, 1, 30, "lo", true, none, 0⟩]⟩ ∧
    (⟨1, 1, 30, "lo", true, none, 0⟩ : Alert).is_active = true ∧
    (⟨1, 1, 30, "lo", true, none, 0⟩ : Alert).threshold ≤ (50 : ℚ) ∧
    (⟨1, 1, 30, "lo", true, none, 0⟩ : Alert).trigger_count = 0 := by
  refine ⟨rfl, rfl, by norm_num, rfl⟩

/-- C1 amended: the snapshot and the alert mutations are committed in two
separate transactions. A crash before `_log_weather`'s commit persists
neither; a crash between the two commits persists the snapshot but no alert
mutation; only the full run persists both. -/
theorem log_and_evaluate_two_transactions :
    (∀ (init : DBState) (wl : WeatherLog) (now : ℕ) (cid : ℤ) (score : ℚ),
      crashAt init (save_branch_steps wl now cid score) 0 = init) ∧
    (∀ (init : DBState) (wl : WeatherLog) (now : ℕ) (cid : ℤ) (score : ℚ),
      crashAt init (save_branch_steps wl now cid score) 1 = init) ∧
    (∀ (init : DBState) (wl : WeatherLog) (now : ℕ) (cid : ℤ) (score : ℚ),
      crashAt init (save_branch_steps wl now cid score) 2 =
        { init with logs := init.logs ++ [wl] }) ∧
    (∀ (init : DBState) (wl : WeatherLog) (now : ℕ) (cid : ℤ) (score : ℚ),
      crashAt init (save_branch_steps wl now cid score) 3 =
        { init with logs := init.logs ++ [wl] }) ∧
    (∀ (init : DBState) (wl : WeatherLog) (now : ℕ) (cid : ℤ) (score : ℚ),
      crashAt init (save_branch_steps wl now cid score) 4 =
        { init with
          logs := init.logs ++ [wl],
          alerts := init.alerts.map (check_alert_step now score cid) }) := by
  refine ⟨fun _ _ _ _ _ => rfl, fun _ _ _ _ _ => rfl, fun _ _ _ _ _ => rfl,
    fun _ _ _ _ _ => rfl, fun _ _ _ _ _ => rfl⟩

/-! ### Alert creation (src/backend/schemas.py `AlertCreate`,
src/backend/main.py `create_alert` lines 443-452). -/

/-- The request body `AlertCreate` (src/backend/schemas.py lines 110-113). -/
structure AlertCreate where
  city_id : ℤ
  threshold : ℚ
  label : String
deriving DecidableEq, Repr

/-- The validation pydantic applies to the body before the handler runs:
`threshold: float = Field(..., ge=0, le=100)`. -/
def parse_alert_create (cid : ℤ) (threshold : ℚ) (label : String) :
    Option AlertCreate :=
  if 0 ≤ threshold ∧ threshold ≤ 100 then some ⟨cid, threshold, label⟩ else none

inductive CreateAlertOutcome where
  | created (a : Alert)
  | validationFailed
  | cityNotFound
deriving DecidableEq, Repr

/-- `create_alert` (src/backend/main.py lines 443-452), preceded by the body
validation. `nextId` stands for the autoincremented primary key; a new row
takes the column defaults `is_active = true`, `last_triggered = NULL`,
`trigger_count = 0` (src/backend/database.py lines 87-100). -/
def create_alert (db : DBState) (nextId : ℤ) (cid : ℤ) (threshold : ℚ)
    (label : String) : DBState × CreateAlertOutcome :=
  match parse_alert_create cid threshold label with
  | none => (db, .validationFailed)
  | some body =>
    match db.cities.find? (fun c => c.id == body.city_id) with
    | none => (db, .cityNotFound)
    | some _ =>
      let alert : Alert := ⟨nextId, body.city_id, body.threshold, body.label,
        true, none, 0⟩
      ({ db with alerts := db.alerts ++ [alert] }, .created alert)

/-- C9: a threshold outside [0, 100] is rejected with no state change; a
threshold inside [0, 100] for an existing city creates exactly the new alert
row. -/
theorem alert_creation_validates_threshold :
    (∀ (db : DBState) (nid cid : ℤ) (t : ℚ) (l : String),
      t < 0 ∨ 100 < t →
      create_alert db nid cid t l = (db, .validationFailed)) ∧
    (∀ (db : DBState) (nid cid : ℤ) (t : ℚ) (l : String),
      0 ≤ t → t ≤ 100 →
      (db.cities.find? (fun c => c.id == cid)).isSome →
      create_alert db nid cid t l =
        ({ db with alerts := db.alerts ++ [⟨nid, cid, t, l, true, none, 0⟩] },
         .created ⟨nid, cid, t, l, true, none, 0⟩)) := by
  constructor
  · intro db nid cid t l ht
    unfold create_alert parse_alert_create
    rw [if_neg]
    rcases ht with h | h
    · rintro ⟨h0, _⟩; linarith
    · rintro ⟨_, h100⟩; linarith
  · intro db nid cid t l h0 h100 hfind
    unfold create_alert parse_alert_create
    rw [if_pos ⟨h0, h100⟩]
    obtain ⟨c, hc⟩ := Option.isSome_iff_exists.mp hfind
    simp only
    rw [hc]

theorem alert_creation_validates_threshold_witness :
    create_alert ⟨[⟨1, "A", "IN", "", 0, 0, false⟩], [], []⟩ 5 1 150 "x" =
      (⟨[⟨1, "A", "IN", "", 0, 0, false⟩], [], []⟩, .validationFailed) ∧
    create_alert ⟨[⟨1, "A", "IN", "", 0, 0, false⟩], [], []⟩ 5 1 70 "x" =
      (⟨[⟨1, "A", "IN", "", 0, 0, false⟩], [],
        [⟨5, 1, 70, "x", true, none, 0⟩]⟩,
       .created ⟨5, 1, 70, "x", true, none, 0⟩) :=
  ⟨alert_creation_validates_threshold.1 ⟨[⟨1, "A", "IN", "", 0, 0, false⟩], [], []⟩
      5 1 150 "x" (Or.inr (by norm_num)),
   alert_creation_validates_threshold.2 ⟨[⟨1, "A", "IN", "", 0, 0, false⟩], [], []⟩
      5 1 70 "x" (by norm_num) (by norm_num) (by rfl)⟩

/-! ### The `get_weather` handler after a successful fetch
(src/backend/main.py lines 259-299). -/

/-- The fields of the parsed upstream payload that the handler uses, with the
numeric defaults already applied (`rain.get("1h", 0)` etc.). -/
structure Observation where
  temperature : Option ℚ
  humidity : ℚ
  wind_speed : ℚ
  clouds : ℚ
  rain_1h : ℚ
  rain_3h : ℚ
  description : String
deriving DecidableEq, Repr

/-- The `WeatherResponse` the handler returns (src/backend/schemas.py lines
21-35), restricted to the fields modelled here. -/
structure WeatherResponse where
  temperature : Option ℚ
  humidity : ℚ
  wind_speed : ℚ
  clouds : ℚ
  rain_1h : ℚ
  rain_3h : ℚ
  description : String
  flood_risk : FloodRisk
deriving DecidableEq, Repr

/-- Python truthiness of the optional `city_id` query parameter in
`if save_log and city_id:` — `None` and `0` are falsy. -/
def city_id_truthy : Option ℤ → Bool
  | none => false
  | some n => n != 0

/-- The post-fetch logic of `get_weather` (src/backend/main.py lines
259-299): score the observation; persist the snapshot and run the alert
mutations only when `save_log` is true and `city_id` is truthy; return the
scored response in every case. -/
def get_weather_logic (db : DBState) (now : ℕ) (save_log : Bool)
    (city_id : Option ℤ) (o : Observation) : DBState × WeatherResponse :=
  let flood := calculate_flood_probability o.rain_1h o.rain_3h o.humidity
    o.wind_speed o.clouds
  let resp : WeatherResponse := ⟨o.temperature, o.humidity, o.wind_speed,
    o.clouds, o.rain_1h, o.rain_3h, o.description, flood⟩
  if save_log && city_id_truthy city_id then
    let cid := city_id.getD 0
    let wl : WeatherLog := ⟨cid, now, o.rain_1h, o.rain_3h, o.humidity,
      o.wind_speed, o.clouds, o.description, flood.score, flood.level⟩
    ((runSteps db (save_branch_steps wl now cid flood.score)).durable, resp)
  else (db, resp)

/-- C10: with `save_log = true` but `city_id` absent or 0, `get_weather`
writes no log row and mutates no alert — the database is returned unchanged —
yet the full scored response is still produced. -/
theorem save_log_requires_truthy_city_id :
    ∀ (db : DBState) (now : ℕ) (city_id : Option ℤ) (o : Observation),
      city_id = none ∨ city_id = some 0 →
      get_weather_logic db now true city_id o =
        (db, ⟨o.temperature, o.humidity, o.wind_speed, o.clouds, o.rain_1h,
          o.rain_3h, o.description,
          calculate_flood_probability o.rain_1h o.rain_3h o.humidity
            o.wind_speed o.clouds⟩) := by
  intro db now city_id o h
  rcases h with h | h <;> subst h <;> simp [get_weather_logic, city_id_truthy]

theorem save_log_requires_truthy_city_id_witness :
    get_weather_logic ⟨[], [], [⟨1, 1, 30, "lo", true, none, 0⟩]⟩ 7 true none
        ⟨none, 70, 2, 50, 25, 0, "rain"⟩ =
      (⟨[], [], [⟨1, 1, 30, "lo", true, none, 0⟩]⟩,
       ⟨none, 70, 2, 50, 25, 0, "rain",
        calculate_flood_probability 25 0 70 2 50⟩) :=
  save_log_requires_truthy_city_id ⟨[], [], [⟨1, 1, 30, "lo", true, none, 0⟩]⟩
    7 none ⟨none, 70, 2, 50, 25, 0, "rain"⟩ (Or.inl rfl)

/-! ### The SSE live feed (`event_generator` inside `weather_stream`,
src/backend/main.py lines 312-349). -/

/-- Outcome of one upstream fetch attempt: an HTTP response with a status, or
a raised transport exception carrying its message. -/
inductive FetchResult where
  | httpResponse (status : ℕ) (o : Observation)
  | transportFailure (msg : String)
deriving DecidableEq, Repr

/-- One server-sent event. -/
inductive StreamEvent where
  | scored (o : Observation) (flood : FloodRisk) (timestamp : ℕ)
  | errorMessage (msg : String)
deriving DecidableEq, Repr

/-- One cycle of `event_generator`: a raised exception is caught and yields
`{"error": str(e)}`; a non-200 status yields `{"error": "API error"}`; a 200
response is scored and yielded. Exactly one event per cycle, and the cycle
always falls through to the sleep. -/
def event_cycle (now : ℕ) : FetchResult → StreamEvent
  | .transportFailure e => .errorMessage e
  | .httpResponse status o =>
    if status = 200 then
      .scored o (calculate_flood_probability o.rain_1h o.rain_3h o.humidity
        o.wind_speed o.clouds) now
    else .errorMessage "API error"

/-- The unbounded event sequence of the `while True` loop: cycle `n` emits
the event for fetch outcome `fetch n` at time `clock n`. Totality in `n` is
the loop never terminating on its own. -/
def event_stream (clock : ℕ → ℕ) (fetch : ℕ → FetchResult) (n : ℕ) :
    StreamEvent :=
  event_cycle (clock n) (fetch n)

/-- C8: every cycle emits exactly one event — a scored payload on a 200
response, an `{"error": …}` event on a non-200 status or a transport
exception — and cycle `n`'s event depends only on cycle `n`'s fetch outcome,
so a failed cycle never affects (let alone stops) any later cycle. -/
theorem live_feed_cycle_emits_one_event_and_continues :
    (∀ (now : ℕ) (e : String),
      event_cycle now (.transportFailure e) = .errorMessage e) ∧
    (∀ (now status : ℕ) (o : Observation), status ≠ 200 →
      event_cycle now (.httpResponse status o) = .errorMessage "API error") ∧
    (∀ (now : ℕ) (o : Observation),
      event_cycle now (.httpResponse 200 o) =
        .scored o (calculate_flood_probability o.rain_1h o.rain_3h o.humidity
          o.wind_speed o.clouds) now) ∧
    (∀ (clock : ℕ → ℕ) (f g : ℕ → FetchResult) (n : ℕ), f n = g n →
      event_stream clock f n = event_stream clock g n) := by
  refine ⟨fun now e => rfl, ?_, fun now o => rfl, ?_⟩
  · intro now status o h
    simp only [event_cycle]
    rw [if_neg h]
  · intro clock f g n h
    unfold event_stream
    rw [h]

theorem live_feed_cycle_witness :
    event_cycle 5 (.httpResponse 500 ⟨none, 70, 2, 50, 1, 2, "rain"⟩) =
      .errorMessage "API error" ∧
    event_stream (fun k => k)
        (fun k => if k < 3 then .transportFailure "boom"
          else .httpResponse 200 ⟨none, 70, 2, 50, 1, 2, "rain"⟩) 3 =
      event_stream (fun k => k)
        (fun _ => .httpResponse 200 ⟨none, 70, 2, 50, 1, 2, "rain"⟩) 3 :=
  ⟨live_feed_cycle_emits_one_event_and_continues.2.1 5 500
      ⟨none, 70, 2, 50, 1, 2, "rain"⟩ (by norm_num),
   live_feed_cycle_emits_one_event_and_continues.2.2.2 (fun k => k)
      (fun k => if k < 3 then .transportFailure "boom"
        else .httpResponse 200 ⟨none, 70, 2, 50, 1, 2, "rain"⟩)
      (fun _ => .httpResponse 200 ⟨none, 70, 2, 50, 1, 2, "rain"⟩) 3 rfl⟩

end FloodLoop
